import Mathlib

/-!
Verification of `start_server.py` (dragon_vs_tiger): a development HTTP
server that serves static files from the script's directory, injects
permissive CORS headers on every response, and opens a browser after a
one-second delay.

The embedding has two parts:
* the per-request pipeline: the stock static-file handler (modelled from the
  spec, since `http.server.SimpleHTTPRequestHandler` is library code) wrapped
  by the repository's `CORSHTTPRequestHandler.end_headers` override;
* the process lifecycle of `main`: argument parsing via Python `int`,
  `os.chdir`, socket bind, banner printing, browser timer, `serve_forever`
  and `KeyboardInterrupt` handling, recorded as an event trace plus an
  outcome.
-/

namespace DragonServer

/-- A byte, as a natural number `< 256` is not enforced structurally; bodies
are byte lists produced by UTF-8 encoding or read from the filesystem. -/
abbrev Bytes := List Nat

/-- UTF-8 bytes of a string. -/
def strBytes (s : String) : Bytes :=
  s.toUTF8.toList.map (fun b => b.toNat)

/-- The filesystem under the serving root: maps a request path to the bytes
of the file it resolves to, or `none` when no such file exists. -/
abbrev FS := String → Option Bytes

/-- An HTTP request: a method and a path. -/
structure Request where
  method : String
  path : String
  deriving DecidableEq, Repr

/-- An HTTP response: status code, header list in emission order, body. -/
structure Response where
  status : Nat
  headers : List (String × String)
  body : Bytes
  deriving DecidableEq, Repr

/-- Modelled from the spec: MIME-type inference from the file extension,
as performed by the standard static-file-serving capability. -/
def guessType (p : String) : String :=
  if p.endsWith ".html" then "text/html"
  else if p.endsWith ".js" then "text/javascript"
  else if p.endsWith ".css" then "text/css"
  else if p.endsWith ".json" then "application/json"
  else if p.endsWith ".png" then "image/png"
  else "application/octet-stream"

/-- Modelled from the spec: the body of a standard error response (its exact
bytes are not specified; only the status code and headers matter to the
claims). -/
def errorPage (code : Nat) : Bytes :=
  strBytes ("Error response: code " ++ toString code)

/-- Modelled from the spec: the standard static-file handler
(`http.server.SimpleHTTPRequestHandler`), which is library code not present
under `src/`. Per the spec it delegates path resolution and file streaming:
`404` for missing files, `200` with the file bytes otherwise, MIME type
inferred from the extension; methods other than GET/HEAD are rejected with
`501 Unsupported method`. HEAD responses carry the same headers but an empty
body. -/
def simpleHTTPServe (fs : FS) (req : Request) : Response :=
  if req.method = "GET" ∨ req.method = "HEAD" then
    match fs req.path with
    | some bytes =>
      { status := 200
        headers := [("Content-type", guessType req.path),
                    ("Content-Length", toString bytes.length)]
        body := if req.method = "GET" then bytes else [] }
    | none =>
      { status := 404
        headers := [("Content-type", "text/html;charset=utf-8"),
                    ("Content-Length", toString (errorPage 404).length)]
        body := if req.method = "GET" then errorPage 404 else [] }
  else
    { status := 501
      headers := [("Content-type", "text/html;charset=utf-8"),
                  ("Content-Length", toString (errorPage 501).length)]
      body := errorPage 501 }

/-- The three CORS headers, in the order the `end_headers` override sends
them (`start_server.py` lines 32–34). -/
def corsHeaders : List (String × String) :=
  [("Access-Control-Allow-Origin", "*"),
   ("Access-Control-Allow-Methods", "GET, POST, OPTIONS"),
   ("Access-Control-Allow-Headers", "Content-Type")]

/-- `CORSHTTPRequestHandler.end_headers` (`start_server.py` lines 31–36):
given the headers the base handler has buffered so far, it sends the three
CORS headers and then finalizes via `super().end_headers()`, so the final
header set is the buffered headers followed by the CORS headers. -/
def end_headers (buffered : List (String × String)) : List (String × String) :=
  buffered ++ corsHeaders

/-- The full per-request behavior of `CORSHTTPRequestHandler`: the base
handler produces the response, and the `end_headers` override appends the
CORS headers to its header set; status and body are untouched. -/
def corsServe (fs : FS) (req : Request) : Response :=
  let base := simpleHTTPServe fs req
  { base with headers := end_headers base.headers }

/-- The server loop handles each incoming request to completion,
independently: the response list is the per-request handler mapped over the
request list. -/
def serveRequests (fs : FS) (reqs : List Request) : List Response :=
  reqs.map (corsServe fs)

/-- Number of occurrences of a header name in a header list. -/
def countHeader (n : String) (hs : List (String × String)) : Nat :=
  (hs.filter (fun h => h.fst = n)).length

/-! ## Process lifecycle of `main` -/

/-- ASCII whitespace stripped by Python `int(str)`. -/
def isPySpace (c : Char) : Bool :=
  c = ' ' || c = '\t' || c = '\n' || c = '\r' ||
  c.toNat = 11 || c.toNat = 12

/-- Is the character an ASCII decimal digit? -/
def isPyDigit (c : Char) : Bool :=
  '0' ≤ c && c ≤ '9'

/-- Numeric value of an ASCII decimal digit. -/
def digitVal (c : Char) : Nat :=
  c.toNat - '0'.toNat

/-- Digit run of a Python integer literal: at least one digit, a single `_`
allowed only between digits. `prev` records whether the previous character
was a digit (so an underscore is legal and a final underscore is not). -/
def parseDigits : List Char → Nat → Bool → Option Nat
  | [], acc, prev => if prev then some acc else none
  | c :: cs, acc, prev =>
    if isPyDigit c then parseDigits cs (acc * 10 + digitVal c) true
    else if c = '_' && prev then parseDigits cs acc false
    else none

/-- Strip Python-`int` whitespace from both ends of a character list. -/
def stripWs (cs : List Char) : List Char :=
  ((cs.dropWhile isPySpace).reverse.dropWhile isPySpace).reverse

/-- Python `int(str)` (base 10, as used by `int(sys.argv[1])` on line 22):
strips surrounding whitespace, accepts an optional `+`/`-` sign, then ASCII
digits with single underscores between digits; anything else raises
`ValueError` (`none`). Note it accepts negative integers. (Non-ASCII decimal
digits, which CPython also accepts, are not modelled.) -/
def pyInt (s : String) : Option Int :=
  match stripWs s.toList with
  | '-' :: rest => (parseDigits rest 0 false).map (fun n => -(n : Int))
  | '+' :: rest => (parseDigits rest 0 false).map (fun n => (n : Int))
  | cs => (parseDigits cs 0 false).map (fun n => (n : Int))

/-- Line 22: `port = int(sys.argv[1]) if len(sys.argv) > 1 else 8000`.
The argument list is `sys.argv[1:]`; an unparseable first argument raises
`ValueError` (returned as `Except.error` carrying the offending argument). -/
def parsePort (argv : List String) : Except String Int :=
  match argv with
  | [] => Except.ok 8000
  | a :: _ =>
    match pyInt a with
    | some n => Except.ok n
    | none => Except.error a

/-- Observable server-process events of a run of `main`, in order. -/
inductive Event where
  | chdir (dir : String)
  | bindAttempt (port : Int)
  | printLine (line : String)
  | timerStart (delayMs : Nat) (url : String)
  | serve (port : Int)
  | closeSocket
  deriving DecidableEq, Repr

/-- Events of the browser-open timer thread, which runs separately from the
server loop. -/
inductive BrowserEvent where
  | printLine (line : String)
  | browserOpen (url : String) (ok : Bool)
  deriving DecidableEq, Repr

/-- Python exceptions `main` can die of (uncaught, so the interpreter prints
a traceback naming the error and exits with status 1). -/
inductive PyError where
  | valueError (arg : String)
  | overflowError (port : Int)
  | addrInUse (port : Int)
  deriving DecidableEq, Repr

/-- How a run of `main` ends. -/
inductive Outcome where
  | exit (code : Nat)
  | uncaught (e : PyError)
  | running
  deriving DecidableEq, Repr

/-- Process exit status: `none` while `serve_forever` is still running. An
uncaught exception makes the interpreter exit with status 1. -/
def exitStatus : Outcome → Option Nat
  | Outcome.exit c => some c
  | Outcome.uncaught _ => some 1
  | Outcome.running => none

/-- The environment a run of `main` observes. -/
structure Env where
  /-- `sys.argv[1:]`, the arguments after the program name. -/
  argv : List String
  /-- `os.path.dirname(os.path.abspath(__file__))`: the directory containing
  the script. -/
  scriptDir : String
  /-- Whether a port is already held by another process. -/
  portInUse : Int → Bool
  /-- Whether a `KeyboardInterrupt` arrives during `serve_forever`. -/
  interrupted : Bool
  /-- Whether `webbrowser.open` succeeds on this host. -/
  browserOk : Bool

/-- Result of `socketserver.TCPServer(("", port), …)`: ports outside
`0..65535` raise `OverflowError` before any bind system call; an in-use port
raises `OSError` (address already in use); otherwise the socket is bound. -/
inductive BindResult where
  | success
  | overflow
  | inUse
  deriving DecidableEq, Repr

/-- Line 38: the single bind attempt. -/
def bindStep (portInUse : Int → Bool) (p : Int) : BindResult :=
  if p < 0 ∨ 65535 < p then BindResult.overflow
  else if portInUse p then BindResult.inUse
  else BindResult.success

/-- The server's root URL for a port. -/
def serverURL (port : Int) : String :=
  "http://localhost:" ++ toString port

/-- The startup banner (lines 39–49), printed after the server is bound;
after the `os.chdir` on line 25 the working directory is the script
directory, so `os.getcwd()` is `scriptDir`. -/
def bannerLines (port : Int) (cwd : String) : List String :=
  ["🚀 Dragon vs Tiger Game Server",
   "📂 Serving directory: " ++ cwd,
   "🌍 Server running at: " ++ serverURL port,
   "",
   "📋 Available pages:",
   "   🎮 Game: " ++ serverURL port ++ "/index.html",
   "   🔧 AI Test: " ++ serverURL port ++ "/ai_fix_test.html",
   "   🧪 Debug: " ++ serverURL port ++ "/debug_ai.html",
   "",
   "Press Ctrl+C to stop server"]

/-- `open_browser` (lines 14–18), run by the timer thread: prints a notice
and invokes `webbrowser.open` on the root URL; `ok` records whether the
host could open a browser. -/
def open_browser (port : Int) (ok : Bool) : List BrowserEvent :=
  [BrowserEvent.printLine ("🌐 Opening browser: " ++ serverURL port),
   BrowserEvent.browserOpen (serverURL port) ok]

/-- A complete run: the server-process event trace, its outcome, and the
events of the (separate) browser-timer thread. -/
structure RunResult where
  events : List Event
  outcome : Outcome
  browserEvents : List BrowserEvent
  deriving Repr

/-- `main` after the port has been determined: `os.chdir` to the script
directory (line 25), construct the `TCPServer` (line 38, the one bind
attempt), and on success print the banner, start the 1.0-second browser
timer (line 51, delay recorded in milliseconds), and enter `serve_forever`.
A `KeyboardInterrupt` is caught (lines 53–56): the shutdown message is
printed, the `with` block closes the listening socket, and the process exits
with status 0. A bind failure propagates out of `main` uncaught. -/
def runWithPort (env : Env) (port : Int) : RunResult :=
  let pre := [Event.chdir env.scriptDir, Event.bindAttempt port]
  match bindStep env.portInUse port with
  | BindResult.overflow =>
    ⟨pre, Outcome.uncaught (PyError.overflowError port), []⟩
  | BindResult.inUse =>
    ⟨pre, Outcome.uncaught (PyError.addrInUse port), []⟩
  | BindResult.success =>
    let banner := (bannerLines port env.scriptDir).map Event.printLine
    let timer := [Event.timerStart 1000 (serverURL port)]
    let browser := open_browser port env.browserOk
    if env.interrupted then
      ⟨pre ++ banner ++ timer ++
         [Event.serve port, Event.printLine "\n🛑 Server stopped",
          Event.closeSocket],
       Outcome.exit 0, browser⟩
    else
      ⟨pre ++ banner ++ timer ++ [Event.serve port], Outcome.running, browser⟩

/-- `main` (lines 20–56): determine the port from `sys.argv`; a `ValueError`
from `int` propagates before anything else happens (no chdir, no bind, no
output); otherwise continue with `runWithPort`. -/
def mainRun (env : Env) : RunResult :=
  match parsePort env.argv with
  | Except.error a => ⟨[], Outcome.uncaught (PyError.valueError a), []⟩
  | Except.ok port => runWithPort env port

/-- Number of bind attempts in a trace. -/
def countBindAttempts (es : List Event) : Nat :=
  (es.filter (fun e => match e with | Event.bindAttempt _ => true | _ => false)).length

/-- Number of timer starts in a trace. -/
def countTimerStarts (es : List Event) : Nat :=
  (es.filter (fun e => match e with | Event.timerStart _ _ => true | _ => false)).length

/-- A concrete one-file filesystem used to exercise the handler. -/
def demoFS : FS :=
  fun q => if q = "/index.html" then some (strBytes "<html></html>") else none

/-- Concrete environment: non-numeric argument. -/
def envBadArg : Env :=
  { argv := ["abc"], scriptDir := "/srv/game", portInUse := fun _ => false,
    interrupted := false, browserOk := true }

/-- Concrete environment: negative argument. -/
def envNegArg : Env :=
  { argv := ["-5"], scriptDir := "/srv/game", portInUse := fun _ => false,
    interrupted := false, browserOk := true }

/-- Concrete environment: every port already in use. -/
def envPortBusy : Env :=
  { argv := ["8123"], scriptDir := "/srv/game", portInUse := fun _ => true,
    interrupted := false, browserOk := true }

/-- Concrete environment: default port, free, interrupted during serving. -/
def envInterrupted : Env :=
  { argv := [], scriptDir := "/srv/game", portInUse := fun _ => false,
    interrupted := true, browserOk := true }

/-- Concrete environment: default port, free, never interrupted. -/
def envQuiet : Env :=
  { argv := [], scriptDir := "/srv/game", portInUse := fun _ => false,
    interrupted := false, browserOk := false }

/-! ## Header-count lemmas -/

lemma countHeader_append (n : String) (xs ys : List (String × String)) :
    countHeader n (xs ++ ys) = countHeader n xs + countHeader n ys := by
  simp [countHeader, List.filter_append]

/-- None of the header names the base handler emits is a CORS header name. -/
lemma countHeader_base_eq_zero (fs : FS) (req : Request) (n : String)
    (hn : n = "Access-Control-Allow-Origin" ∨ n = "Access-Control-Allow-Methods" ∨
          n = "Access-Control-Allow-Headers") :
    countHeader n (simpleHTTPServe fs req).headers = 0 := by
  have hct : ("Content-type" : String) ≠ n := by
    rcases hn with h | h | h <;> subst h <;> decide
  have hcl : ("Content-Length" : String) ≠ n := by
    rcases hn with h | h | h <;> subst h <;> decide
  unfold simpleHTTPServe
  by_cases hm : req.method = "GET" ∨ req.method = "HEAD" <;>
    [skip; simp [hm, countHeader, hct, hcl]]
  cases hfs : fs req.path <;> simp [hm, hfs, countHeader, hct, hcl]

/-- Each CORS header name occurs exactly once in `corsHeaders`. -/
lemma countHeader_cors (n : String)
    (hn : n = "Access-Control-Allow-Origin" ∨ n = "Access-Control-Allow-Methods" ∨
          n = "Access-Control-Allow-Headers") :
    countHeader n corsHeaders = 1 := by
  rcases hn with h | h | h <;> subst h <;> decide

/-! ## Run-shape lemmas for `mainRun` -/

/-- An unparseable first argument: `main` dies of the `ValueError` before any
observable action. -/
lemma mainRun_parse_fail (env : Env) (a : String)
    (hp : parsePort env.argv = Except.error a) :
    mainRun env = ⟨[], Outcome.uncaught (PyError.valueError a), []⟩ := by
  simp [mainRun, hp]

/-- A port outside `0..65535`: the run stops at the socket-creation step. -/
lemma mainRun_overflow (env : Env) (p : Int)
    (hp : parsePort env.argv = Except.ok p)
    (hb : bindStep env.portInUse p = BindResult.overflow) :
    mainRun env = ⟨[Event.chdir env.scriptDir, Event.bindAttempt p],
                   Outcome.uncaught (PyError.overflowError p), []⟩ := by
  simp [mainRun, hp, runWithPort, hb]

/-- A busy port: the run stops at the bind step. -/
lemma mainRun_inUse (env : Env) (p : Int)
    (hp : parsePort env.argv = Except.ok p)
    (hb : bindStep env.portInUse p = BindResult.inUse) :
    mainRun env = ⟨[Event.chdir env.scriptDir, Event.bindAttempt p],
                   Outcome.uncaught (PyError.addrInUse p), []⟩ := by
  simp [mainRun, hp, runWithPort, hb]

/-- A successful bind: chdir, bind, banner, timer, serve; on interrupt the
shutdown message, socket close and exit 0 follow. -/
lemma mainRun_success (env : Env) (p : Int)
    (hp : parsePort env.argv = Except.ok p)
    (hb : bindStep env.portInUse p = BindResult.success) :
    mainRun env =
      ⟨[Event.chdir env.scriptDir, Event.bindAttempt p] ++
         (bannerLines p env.scriptDir).map Event.printLine ++
         [Event.timerStart 1000 (serverURL p)] ++
         (if env.interrupted then
            [Event.serve p, Event.printLine "\n🛑 Server stopped",
             Event.closeSocket]
          else [Event.serve p]),
       (if env.interrupted then Outcome.exit 0 else Outcome.running),
       open_browser p env.browserOk⟩ := by
  cases hint : env.interrupted <;>
    simp [mainRun, hp, runWithPort, hb, hint]

/-! ## Claim theorems -/

/-- Claim C1: for every request — any method, any path, hence any resulting
status code (200, 404, 501) — the response of the CORS handler contains
exactly one instance of each of the three CORS headers, and they sit after
the headers the base static-file handler set itself. -/
theorem C1_cors_headers_on_every_response (fs : FS) (req : Request) :
    countHeader "Access-Control-Allow-Origin" (corsServe fs req).headers = 1 ∧
    countHeader "Access-Control-Allow-Methods" (corsServe fs req).headers = 1 ∧
    countHeader "Access-Control-Allow-Headers" (corsServe fs req).headers = 1 ∧
    (corsServe fs req).headers = (simpleHTTPServe fs req).headers ++ corsHeaders := by
  have hh : (corsServe fs req).headers =
      (simpleHTTPServe fs req).headers ++ corsHeaders := rfl
  refine ⟨?_, ?_, ?_, hh⟩
  · rw [hh, countHeader_append,
      countHeader_base_eq_zero fs req _ (Or.inl rfl),
      countHeader_cors _ (Or.inl rfl)]
  · rw [hh, countHeader_append,
      countHeader_base_eq_zero fs req _ (Or.inr (Or.inl rfl)),
      countHeader_cors _ (Or.inr (Or.inl rfl))]
  · rw [hh, countHeader_append,
      countHeader_base_eq_zero fs req _ (Or.inr (Or.inr rfl)),
      countHeader_cors _ (Or.inr (Or.inr rfl))]

/-- Claim C10: the CORS handler is a pure header decorator — status, body and
the base handler's own headers are exactly those of the stock static-file
handler; the override only appends the three CORS headers at finalization. -/
theorem C10_cors_is_header_only_decorator (fs : FS) (req : Request) :
    (corsServe fs req).status = (simpleHTTPServe fs req).status ∧
    (corsServe fs req).body = (simpleHTTPServe fs req).body ∧
    (corsServe fs req).headers = (simpleHTTPServe fs req).headers ++ corsHeaders :=
  ⟨rfl, rfl, rfl⟩

/-- Claim C2: a GET for a path with no corresponding file yields status 404,
and the request is handled in isolation — surrounding requests in the
server's workload are answered exactly as they would be on their own, so the
404 neither terminates the serving loop nor affects other connections. -/
theorem C2_missing_file_404_contained (fs : FS) (p : String)
    (h : fs p = none) (pre post : List Request) :
    (corsServe fs ⟨"GET", p⟩).status = 404 ∧
    serveRequests fs (pre ++ Request.mk "GET" p :: post) =
      serveRequests fs pre ++
        corsServe fs ⟨"GET", p⟩ :: serveRequests fs post := by
  constructor
  · simp [corsServe, simpleHTTPServe, h]
  · simp [serveRequests]

/-- Witness for C2 at a concrete empty filesystem and workload. -/
theorem C2_missing_file_404_contained_witness :
    (corsServe (fun _ => none) ⟨"GET", "/missing.html"⟩).status = 404 ∧
    serveRequests (fun _ => none)
        ([Request.mk "GET" "/index.html"] ++
          Request.mk "GET" "/missing.html" :: [Request.mk "GET" "/a.js"]) =
      serveRequests (fun _ => none) [Request.mk "GET" "/index.html"] ++
        corsServe (fun _ => none) ⟨"GET", "/missing.html"⟩ ::
          serveRequests (fun _ => none) [Request.mk "GET" "/a.js"] :=
  C2_missing_file_404_contained (fun _ => none) "/missing.html" rfl
    [Request.mk "GET" "/index.html"] [Request.mk "GET" "/a.js"]

/-- Claim C3: a GET for an existing file returns 200 with a body that is
byte-for-byte the file's contents. -/
theorem C3_existing_file_200_exact_bytes (fs : FS) (p : String) (bs : Bytes)
    (h : fs p = some bs) :
    (corsServe fs ⟨"GET", p⟩).status = 200 ∧
    (corsServe fs ⟨"GET", p⟩).body = bs := by
  constructor <;> simp [corsServe, simpleHTTPServe, h]

/-- Witness for C3 on a concrete one-file filesystem. -/
theorem C3_existing_file_200_exact_bytes_witness :
    (corsServe demoFS ⟨"GET", "/index.html"⟩).status = 200 ∧
    (corsServe demoFS ⟨"GET", "/index.html"⟩).body = strBytes "<html></html>" :=
  C3_existing_file_200_exact_bytes demoFS "/index.html"
    (strBytes "<html></html>") (by simp [demoFS])

/-- Counterexample to claim C4: the argument `"-5"` is not a non-negative
integer, yet the parse step (`int(sys.argv[1])`) succeeds — there is no
configuration error. The run proceeds past parsing: it performs the chdir
and reaches the socket-creation step, where it dies of an `OverflowError`
instead. -/
theorem C4_neg_arg_counterexample :
    pyInt "-5" = some (-5) ∧
    (-5 : Int) < 0 ∧
    parsePort ["-5"] = Except.ok (-5) ∧
    (mainRun envNegArg).events =
      [Event.chdir "/srv/game", Event.bindAttempt (-5)] ∧
    (mainRun envNegArg).outcome =
      Outcome.uncaught (PyError.overflowError (-5)) := by
  refine ⟨rfl, by decide, rfl, ?_, ?_⟩ <;> rfl

/-- Claim C4 (amended): the port comes from the single optional positional
argument, defaulting to 8000 when absent. If the argument is not a parseable
integer at all (Python `int` syntax, sign allowed), the program dies of the
`ValueError`, exits with a non-zero status, and never attempts to bind a
socket (its event trace is empty). A negative argument, by contrast, parses
successfully and only fails later, at socket creation. -/
theorem C4_port_argument_amended (env : Env) (a : String) (rest : List String)
    (hargv : env.argv = a :: rest) (hbad : pyInt a = none) :
    parsePort [] = Except.ok 8000 ∧
    parsePort env.argv = Except.error a ∧
    (mainRun env).events = [] ∧
    (mainRun env).outcome = Outcome.uncaught (PyError.valueError a) ∧
    exitStatus (mainRun env).outcome = some 1 := by
  have hp : parsePort env.argv = Except.error a := by
    rw [hargv]; simp [parsePort, hbad]
  have hm := mainRun_parse_fail env a hp
  rw [hm]
  exact ⟨rfl, hp, rfl, rfl, rfl⟩

/-- Witness for the amended C4 at argument `"abc"`. -/
theorem C4_port_argument_amended_witness :
    parsePort [] = Except.ok 8000 ∧
    parsePort envBadArg.argv = Except.error "abc" ∧
    (mainRun envBadArg).events = [] ∧
    (mainRun envBadArg).outcome =
      Outcome.uncaught (PyError.valueError "abc") ∧
    exitStatus (mainRun envBadArg).outcome = some 1 :=
  C4_port_argument_amended envBadArg "abc" [] rfl rfl

/-- Claim C5: when the requested (valid) port is already held by another
process, the single bind attempt fails, the descriptive `OSError` (address
already in use) is surfaced as the process outcome, the exit status is
non-zero, there is exactly one bind attempt (no retry), and serving never
starts. -/
theorem C5_port_in_use_fails_fast (env : Env) (p : Int)
    (hp : parsePort env.argv = Except.ok p)
    (h0 : 0 ≤ p) (h1 : p ≤ 65535)
    (hbusy : env.portInUse p = true) :
    (mainRun env).outcome = Outcome.uncaught (PyError.addrInUse p) ∧
    exitStatus (mainRun env).outcome = some 1 ∧
    countBindAttempts (mainRun env).events = 1 ∧
    (∀ q, Event.serve q ∉ (mainRun env).events) := by
  have hb : bindStep env.portInUse p = BindResult.inUse := by
    unfold bindStep
    rw [if_neg (by omega), if_pos hbusy]
  have hm := mainRun_inUse env p hp hb
  rw [hm]
  refine ⟨rfl, rfl, rfl, ?_⟩
  intro q
  simp

/-- Witness for C5: port 8123 requested while every port is busy. -/
theorem C5_port_in_use_fails_fast_witness :
    (mainRun envPortBusy).outcome =
      Outcome.uncaught (PyError.addrInUse 8123) ∧
    exitStatus (mainRun envPortBusy).outcome = some 1 ∧
    countBindAttempts (mainRun envPortBusy).events = 1 ∧
    (∀ q, Event.serve q ∉ (mainRun envPortBusy).events) :=
  C5_port_in_use_fails_fast envPortBusy 8123 rfl (by decide) (by decide) rfl

/-- Claim C6: a `KeyboardInterrupt` while serving is caught — the serving
loop ends (no event follows the socket close), the shutdown message is
printed, the listening socket is released as the `with` block exits, and the
process exits with status 0. -/
theorem C6_interrupt_clean_shutdown (env : Env) (p : Int)
    (hp : parsePort env.argv = Except.ok p)
    (hb : bindStep env.portInUse p = BindResult.success)
    (hint : env.interrupted = true) :
    (mainRun env).outcome = Outcome.exit 0 ∧
    exitStatus (mainRun env).outcome = some 0 ∧
    Event.printLine "\n🛑 Server stopped" ∈ (mainRun env).events ∧
    (mainRun env).events.getLast? = some Event.closeSocket := by
  have hm := mainRun_success env p hp hb
  rw [hint] at hm
  rw [hm]
  simp [bannerLines, exitStatus]

/-- Witness for C6: default port, free, interrupt delivered. -/
theorem C6_interrupt_clean_shutdown_witness :
    (mainRun envInterrupted).outcome = Outcome.exit 0 ∧
    exitStatus (mainRun envInterrupted).outcome = some 0 ∧
    Event.printLine "\n🛑 Server stopped" ∈ (mainRun envInterrupted).events ∧
    (mainRun envInterrupted).events.getLast? = some Event.closeSocket :=
  C6_interrupt_clean_shutdown envInterrupted 8000 rfl rfl rfl

/-- Claim C7: whenever the port argument parses, the very first observable
action of the run — before the bind, the banner, the timer and any serving —
is the chdir to the directory containing the script, so file serving is
rooted there regardless of the caller's working directory (which the run
never consults). -/
theorem C7_chdir_to_script_dir_first (env : Env) (p : Int)
    (hp : parsePort env.argv = Except.ok p) :
    (mainRun env).events.head? = some (Event.chdir env.scriptDir) := by
  rcases hb : bindStep env.portInUse p with _ | _ | _
  · rw [mainRun_success env p hp hb]
    cases env.interrupted <;> simp
  · rw [mainRun_overflow env p hp hb]
    rfl
  · rw [mainRun_inUse env p hp hb]
    rfl

/-- Witness for C7 on the quiet concrete environment. -/
theorem C7_chdir_to_script_dir_first_witness :
    (mainRun envQuiet).events.head? = some (Event.chdir envQuiet.scriptDir) :=
  C7_chdir_to_script_dir_first envQuiet 8000 rfl

/-- Claim C8: after a successful bind exactly one browser-open timer is
started, with a 1.0-second (1000 ms) delay and the URL
`http://localhost:<port>`; the timer thread invokes the browser-open
mechanism on that URL; and whether the browser launch succeeds changes
neither the server's event trace nor its outcome (non-fatal). The timer
start precedes the serve event in the trace, so it is independent of any
request arriving. -/
theorem C8_browser_timer_once_nonfatal (env : Env) (p : Int)
    (hp : parsePort env.argv = Except.ok p)
    (hb : bindStep env.portInUse p = BindResult.success) :
    countTimerStarts (mainRun env).events = 1 ∧
    Event.timerStart 1000 (serverURL p) ∈ (mainRun env).events ∧
    (mainRun env).browserEvents = open_browser p env.browserOk ∧
    BrowserEvent.browserOpen (serverURL p) env.browserOk ∈
      (mainRun env).browserEvents ∧
    (∀ b, (mainRun { env with browserOk := b }).events = (mainRun env).events ∧
      (mainRun { env with browserOk := b }).outcome = (mainRun env).outcome) := by
  have hm := mainRun_success env p hp hb
  refine ⟨?_, ?_, ?_, ?_, ?_⟩
  · rw [hm]
    cases env.interrupted <;> rfl
  · rw [hm]
    simp
  · rw [hm]
  · rw [hm]
    simp [open_browser]
  · intro b
    have hm2 := mainRun_success { env with browserOk := b } p hp hb
    rw [hm, hm2]
    exact ⟨rfl, rfl⟩

/-- Witness for C8 on the quiet concrete environment (browser launch
failing there, and succeeding in the varied runs). -/
theorem C8_browser_timer_once_nonfatal_witness :
    countTimerStarts (mainRun envQuiet).events = 1 ∧
    Event.timerStart 1000 (serverURL 8000) ∈ (mainRun envQuiet).events ∧
    (mainRun envQuiet).browserEvents = open_browser 8000 envQuiet.browserOk ∧
    BrowserEvent.browserOpen (serverURL 8000) envQuiet.browserOk ∈
      (mainRun envQuiet).browserEvents ∧
    (∀ b, (mainRun { envQuiet with browserOk := b }).events =
        (mainRun envQuiet).events ∧
      (mainRun { envQuiet with browserOk := b }).outcome =
        (mainRun envQuiet).outcome) :=
  C8_browser_timer_once_nonfatal envQuiet 8000 rfl rfl

/-- Claim C9: when the bind fails (busy port or out-of-range port), the run
stops right there: the trace is only the chdir and the failed bind attempt —
no banner line is printed, no browser timer is started, and the browser
thread never runs. -/
theorem C9_bind_failure_no_startup_effects (env : Env) (p : Int)
    (hp : parsePort env.argv = Except.ok p)
    (hb : bindStep env.portInUse p ≠ BindResult.success) :
    (mainRun env).events =
      [Event.chdir env.scriptDir, Event.bindAttempt p] ∧
    (∀ s, Event.printLine s ∉ (mainRun env).events) ∧
    (∀ d u, Event.timerStart d u ∉ (mainRun env).events) ∧
    (mainRun env).browserEvents = [] := by
  rcases hbs : bindStep env.portInUse p with _ | _ | _
  · exact absurd hbs hb
  · rw [mainRun_overflow env p hp hbs]
    refine ⟨rfl, ?_, ?_, rfl⟩ <;> intros <;> simp
  · rw [mainRun_inUse env p hp hbs]
    refine ⟨rfl, ?_, ?_, rfl⟩ <;> intros <;> simp

/-- Witness for C9: busy port 8123. -/
theorem C9_bind_failure_no_startup_effects_witness :
    (mainRun envPortBusy).events =
      [Event.chdir envPortBusy.scriptDir, Event.bindAttempt 8123] ∧
    (∀ s, Event.printLine s ∉ (mainRun envPortBusy).events) ∧
    (∀ d u, Event.timerStart d u ∉ (mainRun envPortBusy).events) ∧
    (mainRun envPortBusy).browserEvents = [] :=
  C9_bind_failure_no_startup_effects envPortBusy 8123 rfl (by decide)

end DragonServer
